import Mathlib

/-!
# Verification of the VirtualManWeek session/idle-tracking core

A shallow embedding of `src/virtualmanweek/tracking/engine.py` (the `Tracker`
state machine) together with the slice of `src/virtualmanweek/db/models.py`
that the Tracker calls (`upsert_mode`, `insert_time_entry`, and the
`time_entries` aggregation used by the daily-cap guard).

Modelling conventions:

* Wall-clock time (`int(time.time())` in the source) is passed explicitly as a
  `now : Int` argument to every operation.
* The SQLite store is modelled by the `entries` (append-only log of
  `insert_time_entry` calls) and `modes` (log of `upsert_mode` registrations)
  fields of the `Tracker` state.
* The `date` column of a time entry (a local-date string in the source) is
  modelled as a day index `dayOf ts = ts.fdiv 86400`; the daily-cap query
  `WHERE date = today` compares these day indices.
* Python truthiness of an `Optional[str]` (`if original_mode:`,
  `if self.resume_mode_label:`) is modelled by `pyStrTruthy`: `None` and the
  empty string are falsy.
* In `activity_ping` the local variable `sess` aliases the mutable
  `self.active` object; after the auto-resume `switch` the alias refers to the
  already-closed session, so writes through it are no longer observable.  The
  embedding makes this explicit via the `sessLive` flag of `recoveryStep`.
-/

/-- Configuration slice consumed by the Tracker (`config.Settings`). -/
structure Settings where
  idle_timeout_seconds : Int
  tag_cloud_limit : Int
  discard_sub_10s_entries : Bool
  language : String
  database_path : Option String
deriving Repr, DecidableEq

/-- `Settings.load()` defaults from `config.DEFAULT_SETTINGS`. -/
def defaultSettings : Settings :=
  { idle_timeout_seconds := 300, tag_cloud_limit := 10,
    discard_sub_10s_entries := true, language := "en", database_path := none }

/-- The mutable in-memory session (`engine.ActiveSession`). -/
structure ActiveSession where
  project_id : Option Int
  mode_label : String
  start_ts : Int
  idle_accum : Int
  last_activity_ts : Int
  last_poll_ts : Int
deriving Repr, DecidableEq

/-- One persisted row of the `time_entries` table, as written by
`models.insert_time_entry`.  `date` is the day bucket of `start_ts`. -/
structure TimeEntry where
  start_ts : Int
  end_ts : Int
  active_seconds : Int
  idle_seconds : Int
  manual_seconds : Int
  project_id : Option Int
  mode_label : String
  description : Option String
  source : String
  date : Int
deriving Repr, DecidableEq

/-- Day bucket of a timestamp: models the `%Y-%m-%d` date string that
`models.insert_time_entry` derives from `start_ts` and that
`_check_24_hour_limit` derives from `datetime.now()`. -/
def dayOf (ts : Int) : Int := ts.fdiv 86400

/-- Model of Python `str.lower()` (used for the case-insensitive `'idle'`
sentinel comparisons).  `String.toLower` itself is not kernel-computable, so
the embedding maps `Char.toLower` over the character list directly. -/
def pyLower (s : String) : String := ⟨s.data.map Char.toLower⟩

/-- Model of Python `str.strip()`: drop whitespace from both ends. -/
def pyStrip (s : String) : String :=
  ⟨((s.data.dropWhile Char.isWhitespace).reverse.dropWhile Char.isWhitespace).reverse⟩

/-- Python truthiness of an `Optional[str]`: `None` and `''` are falsy. -/
def pyStrTruthy : Option String → Bool
  | none => false
  | some s => !(s == "")

/-- Value of an `Optional[str]` at a use site (only read under a truthiness
guard in the source). -/
def pyStrGet : Option String → String
  | none => ""
  | some s => s

/-- The Tracker state (`engine.Tracker`), including its view of the store. -/
structure Tracker where
  settings : Settings
  active : Option ActiveSession
  /-- cap gap attribution (`self.max_gap_idle_seconds = 6 * 3600`) -/
  max_gap_idle_seconds : Int
  /-- split session if gap > factor * idle_timeout (`= 3`) -/
  split_gap_factor : Int
  auto_split_on_long_gap : Bool
  /-- original mode before auto Idle -/
  resume_mode_label : Option String
  /-- when user activity started after idle -/
  resume_active_start_ts : Option Int
  /-- wait this many active seconds before restoring mode (`= 15`) -/
  restore_active_delay_seconds : Int
  /-- any gap >= this considered a candidate for sleep (`= 30`) -/
  poll_gap_sleep_min : Int
  /-- log gaps >= this for diagnostics (`= 5`) -/
  poll_gap_log_min : Int
  /-- when continuous activity began after idle attribution -/
  active_recovery_start : Option Int
  _active_description : Option String
  _active_manual_seconds : Int
  /-- append-only log of `models.insert_time_entry` calls -/
  entries : List TimeEntry
  /-- log of `models.upsert_mode` registrations -/
  modes : List String
deriving Repr, DecidableEq

namespace Tracker

/-- `Tracker.__init__(settings)`: no active session, tuning constants as in
the source. -/
def init (s : Settings) : Tracker :=
  { settings := s, active := none,
    max_gap_idle_seconds := 6 * 3600, split_gap_factor := 3,
    auto_split_on_long_gap := true,
    resume_mode_label := none, resume_active_start_ts := none,
    restore_active_delay_seconds := 15,
    poll_gap_sleep_min := 30, poll_gap_log_min := 5,
    active_recovery_start := none,
    _active_description := none, _active_manual_seconds := 0,
    entries := [], modes := [] }

/-- `models.upsert_mode(label)`: registration with the store (idempotent
upsert + usage counter in the source; modelled as a registration log). -/
def upsert_mode (t : Tracker) (label : String) : Tracker :=
  { t with modes := t.modes ++ [pyStrip label] }

/-- `models.insert_time_entry(...)`: durable append. -/
def insert_time_entry (t : Tracker) (e : TimeEntry) : Tracker :=
  { t with entries := t.entries ++ [e] }

/-- The entry `Tracker._close` passes to `models.insert_time_entry`. -/
def mkCloseEntry (t : Tracker) (sess : ActiveSession) (end_ts manual_seconds : Int) :
    TimeEntry :=
  let duration := end_ts - sess.start_ts
  let idle_seconds := min sess.idle_accum duration
  let active_seconds := max 0 (duration - idle_seconds)
  -- `manual_seconds or getattr(self, '_active_manual_seconds', 0) or 0`
  let total_manual := if manual_seconds ≠ 0 then manual_seconds else t._active_manual_seconds
  { start_ts := sess.start_ts, end_ts := end_ts,
    active_seconds := active_seconds, idle_seconds := idle_seconds,
    manual_seconds := total_manual, project_id := sess.project_id,
    mode_label := sess.mode_label, description := t._active_description,
    source := "auto", date := dayOf sess.start_ts }

/-- `Tracker._close(end_ts, manual_seconds=0)`.  Note: the source never
clears `self.active` here. -/
def close (t : Tracker) (end_ts manual_seconds : Int) : Tracker :=
  match t.active with
  | none => t
  | some sess =>
    let duration := end_ts - sess.start_ts
    if duration < 10 ∧ t.settings.discard_sub_10s_entries then t
    else
      let t' := t.insert_time_entry (t.mkCloseEntry sess end_ts manual_seconds)
      { t' with _active_description := none, _active_manual_seconds := 0 }

/-- `Tracker.start(project_id, mode_label, description=None, manual_seconds=0)`. -/
def start (t : Tracker) (now : Int) (project_id : Option Int) (mode_label : String)
    (description : Option String) (manual_seconds : Int) : Tracker :=
  let t1 := if t.active.isSome then t.close now 0 else t
  let norm_mode := pyStrip mode_label
  let t2 := t1.upsert_mode norm_mode
  let t3 := { t2 with
    active := some { project_id := project_id, mode_label := norm_mode,
                     start_ts := now, idle_accum := 0,
                     last_activity_ts := now, last_poll_ts := now },
    _active_description := description, _active_manual_seconds := manual_seconds }
  -- If starting any non-Idle mode, clear pending resume
  if pyLower norm_mode ≠ "idle" then
    { t3 with resume_mode_label := none, resume_active_start_ts := none }
  else t3

/-- `Tracker.switch(...)` — alias of `start`. -/
def switch (t : Tracker) (now : Int) (project_id : Option Int) (mode_label : String)
    (description : Option String) (manual_seconds : Int) : Tracker :=
  t.start now project_id mode_label description manual_seconds

/-- The trailing block of `activity_ping` (idle-accum recovery).  `sess` is
the session object bound at the top of `activity_ping` (with
`last_activity_ts` already set to `now`); `sessLive` is whether it is still
`self.active` (false after the auto-resume `switch`), i.e. whether writes
through the alias are observable. -/
def recoveryStep (t : Tracker) (sess : ActiveSession) (sessLive : Bool)
    (now th : Int) : Tracker :=
  if pyLower sess.mode_label ≠ "idle" ∧ 0 < sess.idle_accum then
    if now - sess.last_activity_ts < th then
      match t.active_recovery_start with
      | none => { t with active_recovery_start := some now }
      | some r =>
        if t.restore_active_delay_seconds ≤ now - r then
          let t' := if sessLive then
              { t with active := t.active.map (fun s => { s with idle_accum := 0 }) }
            else t
          { t' with active_recovery_start := none }
        else t
    else
      -- user appears idle again, reset recovery window
      { t with active_recovery_start := none }
  else
    -- not in a recovery scenario
    { t with active_recovery_start := none }

/-- `Tracker.activity_ping()`. -/
def activity_ping (t : Tracker) (now : Int) : Tracker :=
  match t.active with
  | none => t
  | some sess0 =>
    let sess := { sess0 with last_activity_ts := now }
    let t1 := { t with active := some sess }
    let th := t1.settings.idle_timeout_seconds
    if pyLower sess.mode_label = "idle" ∧ pyStrTruthy t1.resume_mode_label then
      match t1.resume_active_start_ts with
      | none =>
        ({ t1 with resume_active_start_ts := some now }).recoveryStep sess true now th
      | some s0 =>
        if t1.restore_active_delay_seconds ≤ now - s0 then
          let t2 := t1.switch now none (pyStrGet t1.resume_mode_label)
              (some "(auto resume)") 0
          ({ t2 with resume_mode_label := none,
                     resume_active_start_ts := none }).recoveryStep sess false now th
        else t1.recoveryStep sess true now th
    else t1.recoveryStep sess true now th

/-- Today's recorded work seconds plus the live session estimate, as computed
by `Tracker._check_24_hour_limit`: `SUM(active_seconds) + SUM(manual_seconds)`
over today's non-`'idle'` entries, plus `max(0, now - start_ts - idle_accum)`
for the active session. -/
def todayWork (t : Tracker) (now : Int) : Int :=
  ((t.entries.filter
      (fun e => e.date == dayOf now && pyLower e.mode_label != "idle")).map
      (fun e => e.active_seconds + e.manual_seconds)).foldl (fun a b => a + b) 0
  + match t.active with
    | some s => max 0 (now - s.start_ts - s.idle_accum)
    | none => 0

/-- `Tracker._check_24_hour_limit()`.  Note: the source closes the active
session but does not clear `self.active`. -/
def check_24_hour_limit (t : Tracker) (now : Int) : Tracker × Bool :=
  if 24 * 3600 ≤ t.todayWork now then
    (if t.active.isSome then t.close now 0 else t, true)
  else (t, false)

/-- `gap = now - sess.last_poll_ts`, clamped at zero. -/
def pollGap (sess : ActiveSession) (now : Int) : Int :=
  let gap := now - sess.last_poll_ts
  if gap < 0 then 0 else gap

/-- The auto-split branch of `poll` (lines 156-169 of the source). -/
def gapSplit (t : Tracker) (now th : Int) (sess : ActiveSession) : Tracker :=
  let original_mode : Option String :=
    if pyLower sess.mode_label ≠ "idle" then some sess.mode_label else none
  let split_end := min now (sess.last_activity_ts + th)
  let pre_idle := max 0 (split_end - sess.last_activity_ts)
  let sess1 := { sess with idle_accum := min pre_idle (split_end - sess.start_ts) }
  let t1 := { t with active := some sess1 }
  let t2 := t1.close split_end 0
  let t3 := t2.start now none "Idle" (some "(auto after resume)") 0
  if pyStrTruthy original_mode then
    { t3 with resume_mode_label := original_mode, resume_active_start_ts := none }
  else t3

/-- The gap-attribution branch of `poll` (lines 171-177 of the source). -/
def gapAttribute (t : Tracker) (now th gap : Int) (sess : ActiveSession) : Tracker :=
  let idle_to_add := min gap t.max_gap_idle_seconds
  { t with active := some { sess with
      idle_accum := min (now - sess.start_ts) (sess.idle_accum + idle_to_add),
      last_activity_ts := now - min th idle_to_add } }

/-- Sleep/long-gap detection of `poll` (lines 145-177 of the source). -/
def gap_phase (t : Tracker) (now th : Int) (sess : ActiveSession) : Tracker :=
  let gap := pollGap sess now
  if t.poll_gap_sleep_min ≤ gap then
    -- classify as full sleep only if beyond idle threshold: `gap ≥ th + 5`
    if th + 5 ≤ gap ∧ t.auto_split_on_long_gap ∧ th * t.split_gap_factor < gap then
      t.gapSplit now th sess
    else t.gapAttribute now th gap sess
  else t

/-- Tail of `poll` (lines 178-185 of the source): update `last_poll_ts`, then
external idle measurement precedence. -/
def idle_phase (t : Tracker) (now th : Int) (idle_secs : Option Int) : Tracker :=
  match t.active with
  | none => t
  | some sess0 =>
    let sess := { sess0 with last_poll_ts := now }
    match idle_secs with
    | some i =>
      if th ≤ i then
        { t with active := some { sess with
            idle_accum := min (now - sess.start_ts) i,
            last_activity_ts := now - i } }
      else if th ≤ now - sess.last_activity_ts then
        { t with active := some { sess with
            idle_accum := min (now - sess.start_ts) (now - sess.last_activity_ts) } }
      else { t with active := some sess }
    | none =>
      if th ≤ now - sess.last_activity_ts then
        { t with active := some { sess with
            idle_accum := min (now - sess.start_ts) (now - sess.last_activity_ts) } }
      else { t with active := some sess }

/-- `Tracker.poll(idle_secs=None)`. -/
def poll (t : Tracker) (now : Int) (idle_secs : Option Int) : Tracker :=
  match t.active with
  | none => t
  | some _ =>
    let p := t.check_24_hour_limit now
    if p.2 then p.1
    else
      match p.1.active with
      | none => p.1
      | some sess =>
        let th := p.1.settings.idle_timeout_seconds
        (p.1.gap_phase now th sess).idle_phase now th idle_secs

/-- `Tracker.stop()`. -/
def stop (t : Tracker) (now : Int) : Tracker :=
  match t.active with
  | none => t
  | some _ => { t.close now 0 with active := none }

/-- `Tracker.flush_all()`. -/
def flush_all (t : Tracker) (now : Int) : Tracker :=
  if t.active.isSome then t.stop now else t

end Tracker

/-- One driver-visible operation on the Tracker, tagged with the wall-clock
time at which it is issued. -/
inductive Op where
  | startOp : Int → Option Int → String → Option String → Int → Op
  | switchOp : Int → Option Int → String → Option String → Int → Op
  | pingOp : Int → Op
  | pollOp : Int → Option Int → Op
  | stopOp : Int → Op
deriving Repr, DecidableEq

/-- Wall-clock time of an operation. -/
def Op.time : Op → Int
  | .startOp n _ _ _ _ => n
  | .switchOp n _ _ _ _ => n
  | .pingOp n => n
  | .pollOp n _ => n
  | .stopOp n => n

/-- Apply one operation to a tracker state. -/
def Tracker.applyOp (t : Tracker) : Op → Tracker
  | .startOp n pid label d m => t.start n pid label d m
  | .switchOp n pid label d m => t.switch n pid label d m
  | .pingOp n => t.activity_ping n
  | .pollOp n i => t.poll n i
  | .stopOp n => t.stop n

/-- States reachable from a freshly constructed `Tracker` through any
sequence of driver calls with non-decreasing wall-clock time.  The `Int`
component is the time of the latest call. -/
inductive Reachable (s0 : Settings) : Tracker → Int → Prop where
  | init : ∀ n0 : Int, Reachable s0 (Tracker.init s0) n0
  | step : ∀ {t : Tracker} {n : Int} (op : Op),
      Reachable s0 t n → n ≤ op.time → Reachable s0 (t.applyOp op) op.time

/-- The per-session invariant claimed by the spec: the session started in the
past and its attributed idle time is non-negative and bounded by the elapsed
session duration. -/
def SessInv (s : ActiveSession) (now : Int) : Prop :=
  s.start_ts ≤ now ∧ 0 ≤ s.idle_accum ∧ s.idle_accum ≤ now - s.start_ts

/-! ## Structural lemmas about the operations -/

namespace Tracker

@[simp] theorem close_active (t : Tracker) (e m : Int) :
    (t.close e m).active = t.active := by
  unfold close
  split
  · rfl
  · dsimp only
    split <;> rfl

@[simp] theorem close_settings (t : Tracker) (e m : Int) :
    (t.close e m).settings = t.settings := by
  unfold close
  split
  · rfl
  · dsimp only
    split <;> rfl

@[simp] theorem close_modes (t : Tracker) (e m : Int) :
    (t.close e m).modes = t.modes := by
  unfold close
  split
  · rfl
  · dsimp only
    split <;> rfl

@[simp] theorem close_resume_mode_label (t : Tracker) (e m : Int) :
    (t.close e m).resume_mode_label = t.resume_mode_label := by
  unfold close
  split
  · rfl
  · dsimp only
    split <;> rfl

@[simp] theorem close_resume_active_start_ts (t : Tracker) (e m : Int) :
    (t.close e m).resume_active_start_ts = t.resume_active_start_ts := by
  unfold close
  split
  · rfl
  · dsimp only
    split <;> rfl

@[simp] theorem close_active_recovery_start (t : Tracker) (e m : Int) :
    (t.close e m).active_recovery_start = t.active_recovery_start := by
  unfold close
  split
  · rfl
  · dsimp only
    split <;> rfl

@[simp] theorem close_max_gap_idle_seconds (t : Tracker) (e m : Int) :
    (t.close e m).max_gap_idle_seconds = t.max_gap_idle_seconds := by
  unfold close
  split
  · rfl
  · dsimp only
    split <;> rfl

@[simp] theorem close_split_gap_factor (t : Tracker) (e m : Int) :
    (t.close e m).split_gap_factor = t.split_gap_factor := by
  unfold close
  split
  · rfl
  · dsimp only
    split <;> rfl

@[simp] theorem close_auto_split_on_long_gap (t : Tracker) (e m : Int) :
    (t.close e m).auto_split_on_long_gap = t.auto_split_on_long_gap := by
  unfold close
  split
  · rfl
  · dsimp only
    split <;> rfl

@[simp] theorem close_restore_active_delay_seconds (t : Tracker) (e m : Int) :
    (t.close e m).restore_active_delay_seconds = t.restore_active_delay_seconds := by
  unfold close
  split
  · rfl
  · dsimp only
    split <;> rfl

@[simp] theorem close_poll_gap_sleep_min (t : Tracker) (e m : Int) :
    (t.close e m).poll_gap_sleep_min = t.poll_gap_sleep_min := by
  unfold close
  split
  · rfl
  · dsimp only
    split <;> rfl

/-- `start` always installs exactly the fresh session the source constructs. -/
@[simp] theorem start_active (t : Tracker) (now : Int) (pid : Option Int)
    (label : String) (desc : Option String) (manual : Int) :
    (t.start now pid label desc manual).active =
      some ⟨pid, pyStrip label, now, 0, now, now⟩ := by
  unfold start upsert_mode
  dsimp only
  split <;> rfl

@[simp] theorem start_settings (t : Tracker) (now : Int) (pid : Option Int)
    (label : String) (desc : Option String) (manual : Int) :
    (t.start now pid label desc manual).settings = t.settings := by
  unfold start upsert_mode
  dsimp only
  split <;> split <;> simp

end Tracker

namespace Tracker

@[simp] theorem check_24_hour_limit_fst_active (t : Tracker) (now : Int) :
    (t.check_24_hour_limit now).1.active = t.active := by
  unfold check_24_hour_limit
  split
  · split <;> simp
  · rfl

@[simp] theorem check_24_hour_limit_fst_settings (t : Tracker) (now : Int) :
    (t.check_24_hour_limit now).1.settings = t.settings := by
  unfold check_24_hour_limit
  split
  · split <;> simp
  · rfl

/-- When the daily-cap guard does not fire, it leaves the state untouched. -/
theorem check_24_hour_limit_not_stopped (t : Tracker) (now : Int)
    (h : (t.check_24_hour_limit now).2 = false) :
    (t.check_24_hour_limit now).1 = t := by
  unfold check_24_hour_limit at h ⊢
  by_cases hc : 24 * 3600 ≤ t.todayWork now
  · rw [if_pos hc] at h
    simp at h
  · rw [if_neg hc]

@[simp] theorem gapAttribute_entries (t : Tracker) (now th gap : Int)
    (sess : ActiveSession) : (t.gapAttribute now th gap sess).entries = t.entries := rfl

@[simp] theorem idle_phase_entries (t : Tracker) (now th : Int)
    (idle_secs : Option Int) : (t.idle_phase now th idle_secs).entries = t.entries := by
  unfold idle_phase
  split
  · rfl
  · dsimp only
    split
    · split
      · rfl
      · split <;> rfl
    · split <;> rfl

@[simp] theorem idle_phase_resume_mode_label (t : Tracker) (now th : Int)
    (idle_secs : Option Int) :
    (t.idle_phase now th idle_secs).resume_mode_label = t.resume_mode_label := by
  unfold idle_phase
  split
  · rfl
  · dsimp only
    split
    · split
      · rfl
      · split <;> rfl
    · split <;> rfl

end Tracker

/-! ## Concrete driver traces used as evaluation fixtures -/

/-- A fresh tracker (default settings: `idle_timeout_seconds = 300`,
`discard_sub_10s_entries = True`) on which the driver started mode `"Dev"`
at `t = 0`. -/
def devTracker : Tracker := (Tracker.init defaultSettings).start 0 none "Dev" none 0

/-- `devTracker` after `poll()` at `t = 1000`: the 1000 s poll gap is a full
sleep (`≥ 305`) and exceeds `3 × idle_timeout = 900`, so the poll auto-splits. -/
def devSplitTracker : Tracker := devTracker.poll 1000 none

/-- `devTracker` after `poll()` at `t = 600`: the 600 s gap is a full sleep
but does not exceed `3 × idle_timeout = 900`, so it is attributed as idle on
the still-open session. -/
def devGapTracker : Tracker := devTracker.poll 600 none

/-! ## C1 -/

/-- **C1.** The claim states that every non-discarded closed session is
persisted by exactly one `insert_time_entry` call.  The code violates this:
`_close` never clears `self.active`, so the auto-split path of `poll` first
persists the split session at `split_end` and then `start('Idle')` sees
`self.active` still set and persists the *same* session again at `now`.
Concretely, after `start(None, "Dev")` at `t = 0` and a single `poll()` at
`t = 1000`, the one `"Dev"` session has produced two persisted entries,
`(start 0, end 300)` and `(start 0, end 1000)`. -/
theorem C1_auto_split_persists_session_twice :
    devSplitTracker.entries.map (fun e => (e.start_ts, e.end_ts, e.mode_label)) =
      [(0, 300, "Dev"), (0, 1000, "Dev")] ∧
    devSplitTracker.entries.length = 2 := by
  constructor
  · decide
  · decide

/-! ## C2 -/

/-- **C2 counterexample.** The claim states that a whitespace-only
`mode_label` is rejected before any state mutation.  The code has no such
rejection: after `start(1, "Dev")` at `t = 0`, calling `start(2, "   ")` at
`t = 20` (i) closes the previous session (one entry is persisted), (ii)
registers the empty mode with the store, and (iii) installs a new
`ActiveSession` whose `mode_label` is the empty string. -/
theorem C2_blank_mode_not_rejected :
    (((Tracker.init defaultSettings).start 0 (some 1) "Dev" none 0).start
        20 (some 2) "   " none 0).active =
      some ⟨some 2, "", 20, 0, 20, 20⟩ ∧
    (((Tracker.init defaultSettings).start 0 (some 1) "Dev" none 0).start
        20 (some 2) "   " none 0).entries.length = 1 ∧
    (((Tracker.init defaultSettings).start 0 (some 1) "Dev" none 0).start
        20 (some 2) "   " none 0).modes = ["Dev", ""] := by
  refine ⟨by decide, by decide, by decide⟩

/-- **C2 amended.** `start`/`switch` trims the mode label but does *not*
reject a blank result: the call proceeds exactly like any other `start`,
registering the empty-string mode and installing a fresh `ActiveSession`
with an empty `mode_label` (and, as always, first closing any active
session). -/
theorem C2_blank_mode_accepted (t : Tracker) (now : Int) (pid : Option Int)
    (label : String) (desc : Option String) (manual : Int)
    (h : pyStrip label = "") :
    (t.start now pid label desc manual).active =
      some ⟨pid, "", now, 0, now, now⟩ ∧
    (t.start now pid label desc manual).modes = t.modes ++ [""] := by
  constructor
  · rw [Tracker.start_active, h]
  · unfold Tracker.start Tracker.upsert_mode
    dsimp only
    rw [h]
    split <;> split <;> simp <;> decide

/-- Witness for `C2_blank_mode_accepted` at `label = "   "`, `now = 5`. -/
theorem C2_blank_mode_accepted_witness :
    ((Tracker.init defaultSettings).start 5 none "   " none 0).active =
      some ⟨none, "", 5, 0, 5, 5⟩ ∧
    ((Tracker.init defaultSettings).start 5 none "   " none 0).modes =
      (Tracker.init defaultSettings).modes ++ [""] :=
  C2_blank_mode_accepted (Tracker.init defaultSettings) 5 none "   " none 0 (by decide)

/-! ## C3 -/

/-- **C3.** For every session closed at `end_ts` that is not discarded (and
whose state is well-formed: non-negative `idle_accum`, `start_ts ≤ end_ts`),
`_close` persists exactly the entry with
`idle_seconds = min(idle_accum, duration)`,
`active_seconds + idle_seconds = duration`, and both components
non-negative. -/
theorem C3_close_entry_arithmetic (t : Tracker) (sess : ActiveSession)
    (end_ts m : Int) (hact : t.active = some sess)
    (h0 : 0 ≤ sess.idle_accum) (hdur : sess.start_ts ≤ end_ts)
    (hnd : ¬(end_ts - sess.start_ts < 10 ∧ t.settings.discard_sub_10s_entries = true)) :
    (t.close end_ts m).entries = t.entries ++ [t.mkCloseEntry sess end_ts m] ∧
    (t.mkCloseEntry sess end_ts m).idle_seconds =
      min sess.idle_accum (end_ts - sess.start_ts) ∧
    (t.mkCloseEntry sess end_ts m).active_seconds +
      (t.mkCloseEntry sess end_ts m).idle_seconds = end_ts - sess.start_ts ∧
    0 ≤ (t.mkCloseEntry sess end_ts m).active_seconds ∧
    0 ≤ (t.mkCloseEntry sess end_ts m).idle_seconds := by
  refine ⟨?_, ?_, ?_, ?_, ?_⟩
  · unfold Tracker.close
    rw [hact]
    dsimp only
    rw [if_neg hnd]
    rfl
  · rfl
  · unfold Tracker.mkCloseEntry
    dsimp only
    omega
  · unfold Tracker.mkCloseEntry
    dsimp only
    omega
  · unfold Tracker.mkCloseEntry
    dsimp only
    omega

/-- A tracker holding one well-formed open session, used to witness the
close arithmetic. -/
def closeWitnessTracker : Tracker :=
  { Tracker.init defaultSettings with active := some ⟨none, "Dev", 0, 5, 10, 10⟩ }

/-- Witness for `C3_close_entry_arithmetic`: closing the session
`⟨start 0, idle_accum 5⟩` at `end_ts = 20`. -/
theorem C3_close_entry_arithmetic_witness :
    (closeWitnessTracker.close 20 0).entries =
      closeWitnessTracker.entries ++
        [closeWitnessTracker.mkCloseEntry ⟨none, "Dev", 0, 5, 10, 10⟩ 20 0] ∧
    (closeWitnessTracker.mkCloseEntry ⟨none, "Dev", 0, 5, 10, 10⟩ 20 0).idle_seconds =
      min 5 (20 - 0) ∧
    (closeWitnessTracker.mkCloseEntry ⟨none, "Dev", 0, 5, 10, 10⟩ 20 0).active_seconds +
      (closeWitnessTracker.mkCloseEntry ⟨none, "Dev", 0, 5, 10, 10⟩ 20 0).idle_seconds =
      20 - 0 ∧
    0 ≤ (closeWitnessTracker.mkCloseEntry ⟨none, "Dev", 0, 5, 10, 10⟩ 20 0).active_seconds ∧
    0 ≤ (closeWitnessTracker.mkCloseEntry ⟨none, "Dev", 0, 5, 10, 10⟩ 20 0).idle_seconds :=
  C3_close_entry_arithmetic closeWitnessTracker ⟨none, "Dev", 0, 5, 10, 10⟩ 20 0
    rfl (by decide) (by decide) (by decide)

/-! ## C9 -/

/-- **C9.** The claim (and the source's own comment "User appears idle
again, reset recovery window") says that a ping arriving after an
idle-threshold-exceeding gap resets `active_recovery_start` to unset.  The
code sets `sess.last_activity_ts = now` *before* the comparison, so the
reset branch is unreachable; the ping instead starts the recovery timer.
Concrete run: after `start(None, "Dev")` at `t = 0` and `poll()` at
`t = 600` the session has `idle_accum = 300 > 0` and last confirmed
activity at `t = 300`; the `activity_ping` at `t = 1000` arrives
`700 s ≥ idle_timeout = 300 s` after that activity, yet the recovery timer
comes out as `some 1000`, not `none`. -/
theorem C9_idle_again_does_not_reset_recovery_timer :
    devGapTracker.active = some ⟨none, "Dev", 0, 300, 300, 600⟩ ∧
    devGapTracker.active_recovery_start = none ∧
    (1000 : Int) - 300 ≥ devGapTracker.settings.idle_timeout_seconds ∧
    (devGapTracker.activity_ping 1000).active_recovery_start = some 1000 := by
  refine ⟨by decide, by decide, by decide, by decide⟩

/-! ## C7 and C8 fixtures -/

/-- `devSplitTracker` after a second long gap: `poll()` at `t = 2000` splits
the *idle* session itself (gap `1000 > 900`, pre-split mode is the idle
sentinel). -/
def idleSplitTracker : Tracker := devSplitTracker.poll 2000 none

/-- `devSplitTracker` after a first `activity_ping` at `t = 1001`. -/
def firstPingTracker : Tracker := devSplitTracker.activity_ping 1001

/-! ## C7 -/

/-- **C7 counterexample.** The claim is an "iff": after an auto-split,
`resume_mode_label` is set iff the pre-split mode was not the idle sentinel.
The right-to-left reading fails: when the session being split is itself the
idle sentinel (pre-split mode `"Idle"`), `start('Idle')` does not clear the
pending resume state and the split leaves the *previous* `resume_mode_label`
(`some "Dev"`) in place.  Concretely, the `poll()` at `t = 2000` splits the
idle session opened at `t = 1000` (a fresh idle-sentinel session is opened
at `t = 2000`), yet `resume_mode_label` is still `some "Dev"` — non-`None`
although the pre-split mode *was* the idle sentinel. -/
theorem C7_resume_set_after_idle_split :
    devSplitTracker.active = some ⟨none, "Idle", 1000, 0, 1000, 1000⟩ ∧
    idleSplitTracker.active = some ⟨none, "Idle", 2000, 0, 2000, 2000⟩ ∧
    idleSplitTracker.entries.length = 4 ∧
    idleSplitTracker.resume_mode_label = some "Dev" := by
  refine ⟨by decide, by decide, by decide, by decide⟩

/-! ## C8 -/

/-- **C8 counterexample.** The claim says an interval of renewed idleness
before the 15 s delay elapses prevents the auto-resume from firing on the
next ping.  In the code nothing ever resets `resume_active_start_ts` on
idleness: after the auto-split at `t = 1000`, a first ping at `t = 1001`
only starts the timer, the user is then idle for 499 s (far above the 300 s
idle threshold), and the *next* ping at `t = 1500` immediately fires the
auto-resume back into `"Dev"` because `1500 - 1001 ≥ 15`. -/
theorem C8_resume_fires_despite_renewed_idleness :
    firstPingTracker.active = some ⟨none, "Idle", 1000, 0, 1001, 1000⟩ ∧
    firstPingTracker.resume_active_start_ts = some 1001 ∧
    (1500 : Int) - 1001 ≥ firstPingTracker.settings.idle_timeout_seconds ∧
    (firstPingTracker.activity_ping 1500).active =
      some ⟨none, "Dev", 1500, 0, 1500, 1500⟩ ∧
    (firstPingTracker.activity_ping 1500).resume_mode_label = none := by
  refine ⟨by decide, by decide, by decide, by decide, by decide⟩

/-! ## Reduction lemmas for the auto-resume branch of `activity_ping` -/

namespace Tracker

/-- In an idle-sentinel session with a pending resume and no running timer,
a ping only updates `last_activity_ts`, starts the resume timer, and clears
the recovery timer. -/
theorem activity_ping_first_ping (t : Tracker) (sess : ActiveSession) (now : Int)
    (hact : t.active = some sess)
    (hidle : pyLower sess.mode_label = "idle")
    (hres : pyStrTruthy t.resume_mode_label = true)
    (htimer : t.resume_active_start_ts = none) :
    t.activity_ping now =
      { t with active := some { sess with last_activity_ts := now },
               resume_active_start_ts := some now,
               active_recovery_start := none } := by
  unfold activity_ping
  rw [hact]
  dsimp only
  rw [if_pos ⟨hidle, hres⟩, htimer]
  dsimp only
  unfold recoveryStep
  rw [if_neg (fun h => h.1 hidle)]

/-- In an idle-sentinel session with a running resume timer that has not yet
reached the delay, a ping changes nothing but `last_activity_ts` (and clears
the recovery timer). -/
theorem activity_ping_below_delay (t : Tracker) (sess : ActiveSession) (now s0 : Int)
    (hact : t.active = some sess)
    (hidle : pyLower sess.mode_label = "idle")
    (hres : pyStrTruthy t.resume_mode_label = true)
    (htimer : t.resume_active_start_ts = some s0)
    (hdelay : now - s0 < t.restore_active_delay_seconds) :
    t.activity_ping now =
      { t with active := some { sess with last_activity_ts := now },
               active_recovery_start := none } := by
  unfold activity_ping
  rw [hact]
  dsimp only
  rw [if_pos ⟨hidle, hres⟩, htimer]
  dsimp only
  rw [if_neg (by omega : ¬ t.restore_active_delay_seconds ≤ now - s0)]
  unfold recoveryStep
  rw [if_neg (fun h => h.1 hidle)]

/-- Once the resume timer has reached the delay, a ping performs the
auto-resume `switch` into the saved mode and clears the resume state. -/
theorem activity_ping_resume_fires (t : Tracker) (sess : ActiveSession) (now s0 : Int)
    (hact : t.active = some sess)
    (hidle : pyLower sess.mode_label = "idle")
    (hres : pyStrTruthy t.resume_mode_label = true)
    (htimer : t.resume_active_start_ts = some s0)
    (hdelay : t.restore_active_delay_seconds ≤ now - s0) :
    (t.activity_ping now).active =
      some ⟨none, pyStrip (pyStrGet t.resume_mode_label), now, 0, now, now⟩ ∧
    (t.activity_ping now).resume_mode_label = none ∧
    (t.activity_ping now).resume_active_start_ts = none := by
  unfold activity_ping
  rw [hact]
  dsimp only
  rw [if_pos ⟨hidle, hres⟩, htimer]
  dsimp only
  rw [if_pos hdelay]
  unfold recoveryStep
  rw [if_neg (fun h => h.1 hidle)]
  refine ⟨?_, rfl, rfl⟩
  dsimp only [switch]
  rw [start_active]

end Tracker

/-- **C8 amended.** While the active session is the idle sentinel with a
pending `resume_mode_label`: the auto-resume never fires on the first
`activity_ping` (it only starts the timer); on a later ping it does not fire
while `now - resume_active_start_ts < restore_active_delay_seconds`; and it
fires as soon as `now - resume_active_start_ts ≥ restore_active_delay_seconds`
— where `resume_active_start_ts` is simply the time of the first post-idle
ping, with *no* continuity requirement: renewed idleness between pings never
resets the timer or prevents the resume. -/
theorem C8_resume_timer_behavior (t : Tracker) (sess : ActiveSession) (now : Int)
    (hact : t.active = some sess)
    (hidle : pyLower sess.mode_label = "idle")
    (hres : pyStrTruthy t.resume_mode_label = true) :
    (t.resume_active_start_ts = none →
      t.activity_ping now =
        { t with active := some { sess with last_activity_ts := now },
                 resume_active_start_ts := some now,
                 active_recovery_start := none }) ∧
    (∀ s0 : Int, t.resume_active_start_ts = some s0 →
      now - s0 < t.restore_active_delay_seconds →
      t.activity_ping now =
        { t with active := some { sess with last_activity_ts := now },
                 active_recovery_start := none }) ∧
    (∀ s0 : Int, t.resume_active_start_ts = some s0 →
      t.restore_active_delay_seconds ≤ now - s0 →
      (t.activity_ping now).active =
        some ⟨none, pyStrip (pyStrGet t.resume_mode_label), now, 0, now, now⟩ ∧
      (t.activity_ping now).resume_mode_label = none ∧
      (t.activity_ping now).resume_active_start_ts = none) := by
  refine ⟨fun h0 => Tracker.activity_ping_first_ping t sess now hact hidle hres h0,
    fun s0 hs hd => Tracker.activity_ping_below_delay t sess now s0 hact hidle hres hs hd,
    fun s0 hs hd => Tracker.activity_ping_resume_fires t sess now s0 hact hidle hres hs hd⟩

/-- Witness for `C8_resume_timer_behavior` at the post-split idle session,
ping at `t = 1001`. -/
theorem C8_resume_timer_behavior_witness :
    (devSplitTracker.resume_active_start_ts = none →
      devSplitTracker.activity_ping 1001 =
        { devSplitTracker with
            active := some { (⟨none, "Idle", 1000, 0, 1000, 1000⟩ : ActiveSession) with
              last_activity_ts := 1001 },
            resume_active_start_ts := some 1001,
            active_recovery_start := none }) ∧
    (∀ s0 : Int, devSplitTracker.resume_active_start_ts = some s0 →
      (1001 : Int) - s0 < devSplitTracker.restore_active_delay_seconds →
      devSplitTracker.activity_ping 1001 =
        { devSplitTracker with
            active := some { (⟨none, "Idle", 1000, 0, 1000, 1000⟩ : ActiveSession) with
              last_activity_ts := 1001 },
            active_recovery_start := none }) ∧
    (∀ s0 : Int, devSplitTracker.resume_active_start_ts = some s0 →
      devSplitTracker.restore_active_delay_seconds ≤ (1001 : Int) - s0 →
      (devSplitTracker.activity_ping 1001).active =
        some ⟨none, pyStrip (pyStrGet devSplitTracker.resume_mode_label), 1001, 0, 1001, 1001⟩ ∧
      (devSplitTracker.activity_ping 1001).resume_mode_label = none ∧
      (devSplitTracker.activity_ping 1001).resume_active_start_ts = none) :=
  C8_resume_timer_behavior devSplitTracker ⟨none, "Idle", 1000, 0, 1000, 1000⟩ 1001
    (by decide) (by decide) (by decide)

/-! ## C10 -/

/-- **C10.** Every auto-resume performed inside `activity_ping` opens the
restored session with `project_id = None`: only the mode label is restored,
never the project of the pre-idle session. -/
theorem C10_auto_resume_project_none (t : Tracker) (sess : ActiveSession)
    (now s0 : Int) (hact : t.active = some sess)
    (hidle : pyLower sess.mode_label = "idle")
    (hres : pyStrTruthy t.resume_mode_label = true)
    (htimer : t.resume_active_start_ts = some s0)
    (hdelay : t.restore_active_delay_seconds ≤ now - s0) :
    ((t.activity_ping now).active).map ActiveSession.project_id = some none := by
  have h := Tracker.activity_ping_resume_fires t sess now s0 hact hidle hres htimer hdelay
  rw [h.1]
  rfl

/-- Witness for `C10_auto_resume_project_none`: the resume fired by the ping
at `t = 1500` after the first ping at `t = 1001`. -/
theorem C10_auto_resume_project_none_witness :
    ((firstPingTracker.activity_ping 1500).active).map ActiveSession.project_id =
      some none :=
  C10_auto_resume_project_none firstPingTracker ⟨none, "Idle", 1000, 0, 1001, 1000⟩
    1500 1001 (by decide) (by decide) (by decide) (by decide) (by decide)

/-! ## Reduction lemmas for `poll` -/

namespace Tracker

theorem pyStrip_Idle : pyStrip "Idle" = "Idle" := by decide

theorem pyLower_Idle : pyLower "Idle" = "idle" := by decide

/-- When the daily-cap guard does not fire, `poll` is the gap phase followed
by the external-idle phase. -/
theorem poll_eq_phases (t : Tracker) (now : Int) (i : Option Int) (sess : ActiveSession)
    (hact : t.active = some sess)
    (hstop : (t.check_24_hour_limit now).2 = false) :
    t.poll now i = (t.gap_phase now t.settings.idle_timeout_seconds sess).idle_phase
        now t.settings.idle_timeout_seconds i := by
  unfold poll
  rw [hact]
  dsimp only
  rw [hstop]
  have h1 := check_24_hour_limit_not_stopped t now hstop
  rw [h1, hact]
  simp

theorem gap_phase_no_gap (t : Tracker) (now th : Int) (sess : ActiveSession)
    (h : ¬ t.poll_gap_sleep_min ≤ pollGap sess now) :
    t.gap_phase now th sess = t := by
  unfold gap_phase
  rw [if_neg h]

theorem gap_phase_attr (t : Tracker) (now th : Int) (sess : ActiveSession)
    (h : t.poll_gap_sleep_min ≤ pollGap sess now)
    (hns : ¬(th + 5 ≤ pollGap sess now ∧ t.auto_split_on_long_gap = true ∧
        th * t.split_gap_factor < pollGap sess now)) :
    t.gap_phase now th sess = t.gapAttribute now th (pollGap sess now) sess := by
  unfold gap_phase
  rw [if_pos h, if_neg hns]

theorem gap_phase_split (t : Tracker) (now th : Int) (sess : ActiveSession)
    (h : t.poll_gap_sleep_min ≤ pollGap sess now)
    (hs : th + 5 ≤ pollGap sess now ∧ t.auto_split_on_long_gap = true ∧
        th * t.split_gap_factor < pollGap sess now) :
    t.gap_phase now th sess = t.gapSplit now th sess := by
  unfold gap_phase
  rw [if_pos h, if_pos hs]

/-- After an auto-split the active session is a fresh idle-sentinel session
opened at `now`. -/
theorem gapSplit_active (t : Tracker) (now th : Int) (sess : ActiveSession) :
    (t.gapSplit now th sess).active = some ⟨none, "Idle", now, 0, now, now⟩ := by
  unfold gapSplit
  split <;> dsimp only <;> split <;> rw [start_active, pyStrip_Idle]

/-- `start` into the idle sentinel does not clear the pending resume mode. -/
theorem start_Idle_resume (t : Tracker) (now : Int) (d : Option String) (m : Int) :
    (t.start now none "Idle" d m).resume_mode_label = t.resume_mode_label := by
  unfold start
  dsimp only
  rw [if_neg (by rw [pyStrip_Idle, pyLower_Idle]; simp)]
  split <;> simp [upsert_mode]

theorem gapSplit_resume_set (t : Tracker) (now th : Int) (sess : ActiveSession)
    (h1 : pyLower sess.mode_label ≠ "idle") (h2 : sess.mode_label ≠ "") :
    (t.gapSplit now th sess).resume_mode_label = some sess.mode_label := by
  unfold gapSplit
  split
  · dsimp only
    rw [if_pos (by simp [pyStrTruthy, h2])]
  · exact absurd h1 (by assumption)

theorem gapSplit_resume_kept (t : Tracker) (now th : Int) (sess : ActiveSession)
    (h : ¬(pyLower sess.mode_label ≠ "idle" ∧ sess.mode_label ≠ "")) :
    (t.gapSplit now th sess).resume_mode_label = t.resume_mode_label := by
  unfold gapSplit
  split
  · rename_i h1
    have h2 : sess.mode_label = "" := by
      by_contra h2
      exact h ⟨h1, h2⟩
    dsimp only
    rw [if_neg (by simp [pyStrTruthy, h2])]
    rw [start_Idle_resume]
    simp
  · dsimp only
    rw [if_neg (by simp [pyStrTruthy])]
    rw [start_Idle_resume]
    simp

/-- The external-idle phase never changes the active session's mode or start
timestamp. -/
theorem idle_phase_active_mode_start (t : Tracker) (now th : Int) (i : Option Int)
    (sess0 : ActiveSession) (hact : t.active = some sess0) :
    ((t.idle_phase now th i).active).map (fun s => (s.mode_label, s.start_ts)) =
      some (sess0.mode_label, sess0.start_ts) := by
  unfold idle_phase
  rw [hact]
  dsimp only
  split
  · split
    · rfl
    · split <;> rfl
  · split <;> rfl

end Tracker

/-! ## C5 -/

/-- **C5.** A `poll` on an active session closes that session for a gap
(i.e. appends any entry, which only the auto-split branch does) only when the
gap is a candidate (`gap ≥ poll_gap_sleep_min`), is classified as full sleep
(`gap ≥ idle_threshold + 5`), auto-split is enabled, and
`gap > idle_threshold * split_gap_factor`; and the split then opens a fresh
idle-sentinel session at `now`.  Under any other condition `poll` leaves the
entry log untouched. -/
theorem C5_poll_splits_only_on_full_sleep (t : Tracker) (sess : ActiveSession)
    (now : Int) (i : Option Int) (hact : t.active = some sess)
    (hstop : (t.check_24_hour_limit now).2 = false)
    (hch : (t.poll now i).entries ≠ t.entries) :
    t.poll_gap_sleep_min ≤ Tracker.pollGap sess now ∧
    t.settings.idle_timeout_seconds + 5 ≤ Tracker.pollGap sess now ∧
    t.auto_split_on_long_gap = true ∧
    t.settings.idle_timeout_seconds * t.split_gap_factor < Tracker.pollGap sess now ∧
    ((t.poll now i).active).map (fun s => (s.mode_label, s.start_ts)) =
      some ("Idle", now) := by
  have hpoll := Tracker.poll_eq_phases t now i sess hact hstop
  rw [hpoll] at hch
  rw [Tracker.idle_phase_entries] at hch
  by_cases hg : t.poll_gap_sleep_min ≤ Tracker.pollGap sess now
  · by_cases hs : t.settings.idle_timeout_seconds + 5 ≤ Tracker.pollGap sess now ∧
        t.auto_split_on_long_gap = true ∧
        t.settings.idle_timeout_seconds * t.split_gap_factor < Tracker.pollGap sess now
    · refine ⟨hg, hs.1, hs.2.1, hs.2.2, ?_⟩
      rw [hpoll, Tracker.gap_phase_split t now _ sess hg hs]
      exact Tracker.idle_phase_active_mode_start _ now _ i _
        (Tracker.gapSplit_active t now _ sess)
    · exfalso
      rw [Tracker.gap_phase_attr t now _ sess hg hs] at hch
      exact hch (Tracker.gapAttribute_entries t now _ _ sess)
  · exfalso
    rw [Tracker.gap_phase_no_gap t now _ sess hg] at hch
    exact hch rfl

/-- Witness for `C5_poll_splits_only_on_full_sleep`: the split performed by
`poll()` at `t = 1000` on the `"Dev"` session started at `t = 0`. -/
theorem C5_poll_splits_only_on_full_sleep_witness :
    devTracker.poll_gap_sleep_min ≤ Tracker.pollGap ⟨none, "Dev", 0, 0, 0, 0⟩ 1000 ∧
    devTracker.settings.idle_timeout_seconds + 5 ≤
      Tracker.pollGap ⟨none, "Dev", 0, 0, 0, 0⟩ 1000 ∧
    devTracker.auto_split_on_long_gap = true ∧
    devTracker.settings.idle_timeout_seconds * devTracker.split_gap_factor <
      Tracker.pollGap ⟨none, "Dev", 0, 0, 0, 0⟩ 1000 ∧
    ((devTracker.poll 1000 none).active).map (fun s => (s.mode_label, s.start_ts)) =
      some ("Idle", 1000) :=
  C5_poll_splits_only_on_full_sleep devTracker ⟨none, "Dev", 0, 0, 0, 0⟩ 1000 none
    (by decide) (by decide) (by decide)

/-! ## C6 -/

/-- **C6 counterexample.** The claim predicts that a non-splitting gap-poll
increases `idle_accum` by `min(gap, 21600)` (capped at `now - start_ts`).
For the `"Dev"` session started at `t = 0` and `poll()` at `t = 600`
(gap 600, no split since `600 ≤ 900`), the predicted value is
`min(0 + min(600, 21600), 600 - 0) = 600`, but the code produces
`idle_accum = 300`: the trailing internal-idle recomputation overwrites the
attributed gap with `min(now - start_ts, idle_threshold)`. -/
theorem C6_gap_attribution_overwritten :
    devTracker.active = some ⟨none, "Dev", 0, 0, 0, 0⟩ ∧
    (min (0 + min 600 21600) (600 - 0) : Int) = 600 ∧
    (devGapTracker.active).map ActiveSession.idle_accum = some 300 ∧
    (300 : Int) ≠ 600 := by
  refine ⟨by decide, by decide, by decide, by decide⟩

/-- **C6 amended.** For a `poll(idle_secs=None)` whose gap is a sleep
candidate but does not auto-split: when `min(gap, max_gap_idle_seconds)` is
below the idle threshold, `idle_accum` increases by exactly that amount
(capped at `now - start_ts`); but when it reaches the idle threshold, the
trailing internal-idle recomputation overwrites the accumulated value with
`min(now - start_ts, idle_threshold)`.  In both cases `last_activity_ts` is
pulled back to `now - min(idle_threshold, min(gap, max_gap_idle_seconds))`
and `last_poll_ts` becomes `now`. -/
theorem C6_gap_attribution_net_effect (t : Tracker) (sess : ActiveSession) (now : Int)
    (hact : t.active = some sess)
    (hstop : (t.check_24_hour_limit now).2 = false)
    (hg : t.poll_gap_sleep_min ≤ Tracker.pollGap sess now)
    (hns : ¬(t.settings.idle_timeout_seconds + 5 ≤ Tracker.pollGap sess now ∧
        t.auto_split_on_long_gap = true ∧
        t.settings.idle_timeout_seconds * t.split_gap_factor < Tracker.pollGap sess now)) :
    (t.poll now none).active = some
      { sess with
        idle_accum :=
          if t.settings.idle_timeout_seconds ≤
              min (Tracker.pollGap sess now) t.max_gap_idle_seconds then
            min (now - sess.start_ts) t.settings.idle_timeout_seconds
          else
            min (now - sess.start_ts)
              (sess.idle_accum + min (Tracker.pollGap sess now) t.max_gap_idle_seconds),
        last_activity_ts :=
          now - min t.settings.idle_timeout_seconds
            (min (Tracker.pollGap sess now) t.max_gap_idle_seconds),
        last_poll_ts := now } := by
  rw [Tracker.poll_eq_phases t now none sess hact hstop,
      Tracker.gap_phase_attr t now _ sess hg hns]
  unfold Tracker.gapAttribute Tracker.idle_phase
  dsimp only
  by_cases hta : t.settings.idle_timeout_seconds ≤
      min (Tracker.pollGap sess now) t.max_gap_idle_seconds
  · rw [if_pos hta,
      if_pos (show t.settings.idle_timeout_seconds ≤ now -
        (now - min t.settings.idle_timeout_seconds
          (min (Tracker.pollGap sess now) t.max_gap_idle_seconds)) by omega)]
    simp only [Option.some.injEq, ActiveSession.mk.injEq, and_true, true_and]
    omega
  · rw [if_neg hta,
      if_neg (show ¬ t.settings.idle_timeout_seconds ≤ now -
        (now - min t.settings.idle_timeout_seconds
          (min (Tracker.pollGap sess now) t.max_gap_idle_seconds)) by omega)]

/-- Witness for `C6_gap_attribution_net_effect`: the `poll()` at `t = 600`
on the `"Dev"` session started at `t = 0` (overwrite case, result 300). -/
theorem C6_gap_attribution_net_effect_witness :
    (devTracker.poll 600 none).active = some
      { (⟨none, "Dev", 0, 0, 0, 0⟩ : ActiveSession) with
        idle_accum :=
          if devTracker.settings.idle_timeout_seconds ≤
              min (Tracker.pollGap ⟨none, "Dev", 0, 0, 0, 0⟩ 600)
                devTracker.max_gap_idle_seconds then
            min (600 - 0) devTracker.settings.idle_timeout_seconds
          else
            min (600 - 0)
              (0 + min (Tracker.pollGap ⟨none, "Dev", 0, 0, 0, 0⟩ 600)
                devTracker.max_gap_idle_seconds),
        last_activity_ts :=
          600 - min devTracker.settings.idle_timeout_seconds
            (min (Tracker.pollGap ⟨none, "Dev", 0, 0, 0, 0⟩ 600)
              devTracker.max_gap_idle_seconds),
        last_poll_ts := 600 } :=
  C6_gap_attribution_net_effect devTracker ⟨none, "Dev", 0, 0, 0, 0⟩ 600
    (by decide) (by decide) (by decide) (by decide)

/-! ## C7 -/

/-- **C7 amended.** After an auto-split, `resume_mode_label` is set to the
pre-split mode exactly when that mode was neither the idle sentinel
(case-insensitively) nor the empty string; otherwise — in particular when the
split session was itself the idle sentinel — `resume_mode_label` keeps its
previous value, which may still be non-`None` from an earlier split. -/
theorem C7_resume_label_after_split (t : Tracker) (sess : ActiveSession)
    (now : Int) (i : Option Int) (hact : t.active = some sess)
    (hstop : (t.check_24_hour_limit now).2 = false)
    (hg : t.poll_gap_sleep_min ≤ Tracker.pollGap sess now)
    (hs : t.settings.idle_timeout_seconds + 5 ≤ Tracker.pollGap sess now ∧
        t.auto_split_on_long_gap = true ∧
        t.settings.idle_timeout_seconds * t.split_gap_factor < Tracker.pollGap sess now) :
    ((pyLower sess.mode_label ≠ "idle" ∧ sess.mode_label ≠ "") →
      (t.poll now i).resume_mode_label = some sess.mode_label) ∧
    (¬(pyLower sess.mode_label ≠ "idle" ∧ sess.mode_label ≠ "") →
      (t.poll now i).resume_mode_label = t.resume_mode_label) := by
  rw [Tracker.poll_eq_phases t now i sess hact hstop,
      Tracker.gap_phase_split t now _ sess hg hs,
      Tracker.idle_phase_resume_mode_label]
  exact ⟨fun hm => Tracker.gapSplit_resume_set t now _ sess hm.1 hm.2,
    fun hm => Tracker.gapSplit_resume_kept t now _ sess hm⟩

/-- Witness for `C7_resume_label_after_split`: the second split (of the idle
session itself) performed by `poll()` at `t = 2000`. -/
theorem C7_resume_label_after_split_witness :
    ((pyLower "Idle" ≠ "idle" ∧ "Idle" ≠ "") →
      (devSplitTracker.poll 2000 none).resume_mode_label = some "Idle") ∧
    (¬(pyLower "Idle" ≠ "idle" ∧ "Idle" ≠ "") →
      (devSplitTracker.poll 2000 none).resume_mode_label =
        devSplitTracker.resume_mode_label) :=
  C7_resume_label_after_split devSplitTracker ⟨none, "Idle", 1000, 0, 1000, 1000⟩
    2000 none (by decide) (by decide) (by decide) (by decide)

/-! ## Preservation of configuration fields along the operations -/

namespace Tracker

@[simp] theorem start_max_gap (t : Tracker) (now : Int) (pid : Option Int)
    (label : String) (desc : Option String) (manual : Int) :
    (t.start now pid label desc manual).max_gap_idle_seconds = t.max_gap_idle_seconds := by
  unfold start upsert_mode
  dsimp only
  split <;> split <;> simp

@[simp] theorem recoveryStep_settings (t : Tracker) (sess : ActiveSession) (b : Bool)
    (now th : Int) : (t.recoveryStep sess b now th).settings = t.settings := by
  unfold recoveryStep
  split
  · split
    · split
      · rfl
      · split
        · split <;> rfl
        · rfl
    · rfl
  · rfl

@[simp] theorem recoveryStep_max_gap (t : Tracker) (sess : ActiveSession) (b : Bool)
    (now th : Int) :
    (t.recoveryStep sess b now th).max_gap_idle_seconds = t.max_gap_idle_seconds := by
  unfold recoveryStep
  split
  · split
    · split
      · rfl
      · split
        · split <;> rfl
        · rfl
    · rfl
  · rfl

@[simp] theorem activity_ping_settings (t : Tracker) (now : Int) :
    (t.activity_ping now).settings = t.settings := by
  unfold activity_ping
  split
  · rfl
  · dsimp only
    split
    · split
      · simp
      · split <;> simp [switch]
    · simp

@[simp] theorem activity_ping_max_gap (t : Tracker) (now : Int) :
    (t.activity_ping now).max_gap_idle_seconds = t.max_gap_idle_seconds := by
  unfold activity_ping
  split
  · rfl
  · dsimp only
    split
    · split
      · simp
      · split <;> simp [switch]
    · simp

@[simp] theorem gapSplit_settings (t : Tracker) (now th : Int) (sess : ActiveSession) :
    (t.gapSplit now th sess).settings = t.settings := by
  unfold gapSplit
  split <;> dsimp only <;> try split
  all_goals simp

@[simp] theorem gapSplit_max_gap (t : Tracker) (now th : Int) (sess : ActiveSession) :
    (t.gapSplit now th sess).max_gap_idle_seconds = t.max_gap_idle_seconds := by
  unfold gapSplit
  split <;> dsimp only <;> try split
  all_goals simp

@[simp] theorem gap_phase_settings (t : Tracker) (now th : Int) (sess : ActiveSession) :
    (t.gap_phase now th sess).settings = t.settings := by
  unfold gap_phase
  dsimp only
  split
  · split <;> simp [gapAttribute]
  · rfl

@[simp] theorem gap_phase_max_gap (t : Tracker) (now th : Int) (sess : ActiveSession) :
    (t.gap_phase now th sess).max_gap_idle_seconds = t.max_gap_idle_seconds := by
  unfold gap_phase
  dsimp only
  split
  · split <;> simp [gapAttribute]
  · rfl

@[simp] theorem idle_phase_settings (t : Tracker) (now th : Int) (i : Option Int) :
    (t.idle_phase now th i).settings = t.settings := by
  unfold idle_phase
  split
  · rfl
  · dsimp only
    split
    · split
      · rfl
      · split <;> rfl
    · split <;> rfl

@[simp] theorem idle_phase_max_gap (t : Tracker) (now th : Int) (i : Option Int) :
    (t.idle_phase now th i).max_gap_idle_seconds = t.max_gap_idle_seconds := by
  unfold idle_phase
  split
  · rfl
  · dsimp only
    split
    · split
      · rfl
      · split <;> rfl
    · split <;> rfl

@[simp] theorem check_24_hour_limit_fst_max_gap (t : Tracker) (now : Int) :
    (t.check_24_hour_limit now).1.max_gap_idle_seconds = t.max_gap_idle_seconds := by
  unfold check_24_hour_limit
  split
  · split <;> simp
  · rfl

@[simp] theorem poll_settings (t : Tracker) (now : Int) (i : Option Int) :
    (t.poll now i).settings = t.settings := by
  unfold poll
  split
  · rfl
  · dsimp only
    split
    · simp
    · split
      · simp
      · simp

@[simp] theorem poll_max_gap (t : Tracker) (now : Int) (i : Option Int) :
    (t.poll now i).max_gap_idle_seconds = t.max_gap_idle_seconds := by
  unfold poll
  split
  · rfl
  · dsimp only
    split
    · simp
    · split
      · simp
      · simp

@[simp] theorem stop_settings (t : Tracker) (now : Int) :
    (t.stop now).settings = t.settings := by
  unfold stop
  split
  · rfl
  · simp

@[simp] theorem stop_max_gap (t : Tracker) (now : Int) :
    (t.stop now).max_gap_idle_seconds = t.max_gap_idle_seconds := by
  unfold stop
  split
  · rfl
  · simp

end Tracker

/-! ## Session-invariant preservation lemmas -/

theorem sessInv_mono {s : ActiveSession} {n n' : Int} (h : SessInv s n) (hle : n ≤ n') :
    SessInv s n' := by
  obtain ⟨h1, h2, h3⟩ := h
  exact ⟨by omega, h2, by omega⟩

/-- A freshly started session satisfies the invariant at its start time. -/
theorem sessInv_fresh (pid : Option Int) (label : String) (now : Int) :
    SessInv ⟨pid, label, now, 0, now, now⟩ now :=
  ⟨le_refl _, le_refl _, by simp⟩

namespace Tracker

theorem pollGap_nonneg (sess : ActiveSession) (now : Int) : 0 ≤ pollGap sess now := by
  unfold pollGap
  dsimp only
  split <;> omega

theorem start_inv (t : Tracker) (now : Int) (pid : Option Int) (label : String)
    (desc : Option String) (manual : Int) :
    ∀ s, (t.start now pid label desc manual).active = some s → SessInv s now := by
  intro s hs
  rw [start_active] at hs
  exact (Option.some.inj hs) ▸ sessInv_fresh pid (pyStrip label) now

theorem recoveryStep_inv (t : Tracker) (sess : ActiveSession) (b : Bool) (now th : Int)
    (hInv : ∀ s, t.active = some s → SessInv s now) :
    ∀ s, (t.recoveryStep sess b now th).active = some s → SessInv s now := by
  intro s hs
  unfold recoveryStep at hs
  split at hs
  · split at hs
    · split at hs
      · exact hInv s hs
      · split at hs
        · split at hs
          · cases hA : t.active with
            | none => rw [hA] at hs; exact absurd hs (by simp)
            | some s0 =>
              rw [hA] at hs
              simp only [Option.map_some', Option.some.injEq] at hs
              obtain ⟨h1, h2, h3⟩ := hInv s0 hA
              subst hs
              refine ⟨h1, le_refl 0, ?_⟩
              dsimp only
              omega
          · exact hInv s hs
        · exact hInv s hs
    · exact hInv s hs
  · exact hInv s hs

theorem activity_ping_inv (t : Tracker) (n now : Int)
    (hInv : ∀ s, t.active = some s → SessInv s n) (hle : n ≤ now) :
    ∀ s, (t.activity_ping now).active = some s → SessInv s now := by
  have hInv' : ∀ s, t.active = some s → SessInv s now :=
    fun s h => sessInv_mono (hInv s h) hle
  intro s hs
  unfold activity_ping at hs
  cases hA : t.active with
  | none => rw [hA] at hs; exact hInv' s hs
  | some sess =>
    have hSess := hInv' sess hA
    have hSess' : SessInv { sess with last_activity_ts := now } now :=
      ⟨hSess.1, hSess.2.1, hSess.2.2⟩
    have hres' : ∀ (X : Tracker), X.active = some { sess with last_activity_ts := now } →
        ∀ s2, X.active = some s2 → SessInv s2 now := by
      intro X hX s2 hs2
      rw [hX] at hs2
      exact (Option.some.inj hs2) ▸ hSess'
    rw [hA] at hs
    dsimp only at hs
    split at hs
    · split at hs
      · exact recoveryStep_inv _ _ _ _ _ (hres' _ rfl) s hs
      · split at hs
        · refine recoveryStep_inv _ _ _ _ _ ?_ s hs
          intro s2 hs2
          dsimp only [switch] at hs2
          rw [start_active] at hs2
          exact (Option.some.inj hs2) ▸ sessInv_fresh _ _ now
        · exact recoveryStep_inv _ _ _ _ _ (hres' _ rfl) s hs
    · exact recoveryStep_inv _ _ _ _ _ (hres' _ rfl) s hs

end Tracker

namespace Tracker

theorem gap_phase_inv (t : Tracker) (now th : Int) (sess : ActiveSession)
    (hmg : 0 ≤ t.max_gap_idle_seconds)
    (hA : t.active = some sess) (hSess : SessInv sess now) :
    ∀ s, (t.gap_phase now th sess).active = some s → SessInv s now := by
  intro s hs
  unfold gap_phase at hs
  dsimp only at hs
  obtain ⟨h1, h2, h3⟩ := hSess
  split at hs
  · split at hs
    · rw [gapSplit_active] at hs
      exact (Option.some.inj hs) ▸ sessInv_fresh none "Idle" now
    · unfold gapAttribute at hs
      dsimp only at hs
      simp only [Option.some.injEq] at hs
      subst hs
      have hg := pollGap_nonneg sess now
      refine ⟨h1, ?_, ?_⟩ <;> (dsimp only; omega)
  · rw [hA] at hs
    exact (Option.some.inj hs) ▸ ⟨h1, h2, h3⟩

theorem idle_phase_inv (t : Tracker) (now th : Int) (i : Option Int) (hth : 0 ≤ th)
    (hInv : ∀ s, t.active = some s → SessInv s now) :
    ∀ s, (t.idle_phase now th i).active = some s → SessInv s now := by
  intro s hs
  unfold idle_phase at hs
  cases hA : t.active with
  | none =>
    rw [hA] at hs
    dsimp only at hs
    rw [hA] at hs
    exact absurd hs (by simp)
  | some s0 =>
    obtain ⟨h1, h2, h3⟩ := hInv s0 hA
    rw [hA] at hs
    dsimp only at hs
    split at hs
    · split at hs
      · simp only [Option.some.injEq] at hs
        subst hs
        rename_i hi
        refine ⟨h1, ?_, ?_⟩ <;> (dsimp only; omega)
      · split at hs
        · simp only [Option.some.injEq] at hs
          subst hs
          rename_i hnotei hint
          refine ⟨h1, ?_, ?_⟩ <;> (dsimp only; omega)
        · simp only [Option.some.injEq] at hs
          subst hs
          exact ⟨h1, h2, h3⟩
    · split at hs
      · simp only [Option.some.injEq] at hs
        subst hs
        rename_i hint
        refine ⟨h1, ?_, ?_⟩ <;> (dsimp only; omega)
      · simp only [Option.some.injEq] at hs
        subst hs
        exact ⟨h1, h2, h3⟩

theorem poll_inv (t : Tracker) (n now : Int) (i : Option Int)
    (hth : 0 ≤ t.settings.idle_timeout_seconds) (hmg : 0 ≤ t.max_gap_idle_seconds)
    (hInv : ∀ s, t.active = some s → SessInv s n) (hle : n ≤ now) :
    ∀ s, (t.poll now i).active = some s → SessInv s now := by
  have hInv' : ∀ s, t.active = some s → SessInv s now :=
    fun s h => sessInv_mono (hInv s h) hle
  intro s hs
  unfold poll at hs
  cases hA : t.active with
  | none => rw [hA] at hs; exact hInv' s hs
  | some sess =>
    rw [hA] at hs
    dsimp only at hs
    split at hs
    · rw [check_24_hour_limit_fst_active] at hs
      exact hInv' s hs
    · rename_i hp2
      rw [Bool.not_eq_true] at hp2
      rw [check_24_hour_limit_not_stopped t now hp2, hA] at hs
      dsimp only at hs
      refine idle_phase_inv _ now _ i hth ?_ s hs
      exact gap_phase_inv t now _ sess hmg hA (hInv' sess hA)

theorem stop_inv (t : Tracker) (now : Int) :
    ∀ s, (t.stop now).active = some s → SessInv s now := by
  intro s hs
  unfold stop at hs
  split at hs
  · rename_i hA
    rw [hA] at hs
    exact absurd hs (by simp)
  · exact absurd hs (by simp)

end Tracker

/-! ## C4: the reachable-state invariant -/

/-- Induction along `Reachable`: the settings are those the Tracker was
constructed with, the gap-attribution cap is non-negative, and the active
session satisfies `SessInv` at the time of the latest call. -/
theorem reachable_inv (s0 : Settings) (hth : 0 ≤ s0.idle_timeout_seconds)
    {t : Tracker} {n : Int} (h : Reachable s0 t n) :
    t.settings = s0 ∧ 0 ≤ t.max_gap_idle_seconds ∧
      ∀ s, t.active = some s → SessInv s n := by
  induction h with
  | init n0 =>
    refine ⟨rfl, by norm_num [Tracker.init], ?_⟩
    intro s hs
    exact absurd hs (by simp [Tracker.init])
  | @step t1 n1 op hre hle ih =>
    obtain ⟨hset, hmg, hInv⟩ := ih
    cases op with
    | startOp now pid label d m =>
      exact ⟨by simp [Tracker.applyOp, hset], by simpa [Tracker.applyOp] using hmg,
        fun s hs => Tracker.start_inv _ now pid label d m s hs⟩
    | switchOp now pid label d m =>
      exact ⟨by simp [Tracker.applyOp, Tracker.switch, hset],
        by simpa [Tracker.applyOp, Tracker.switch] using hmg,
        fun s hs => Tracker.start_inv _ now pid label d m s hs⟩
    | pingOp now =>
      exact ⟨by simp [Tracker.applyOp, hset],
        by simpa [Tracker.applyOp] using hmg,
        Tracker.activity_ping_inv t1 n1 now hInv hle⟩
    | pollOp now i =>
      exact ⟨by simp [Tracker.applyOp, hset],
        by simpa [Tracker.applyOp] using hmg,
        Tracker.poll_inv t1 n1 now i (hset ▸ hth) hmg hInv hle⟩
    | stopOp now =>
      exact ⟨by simp [Tracker.applyOp, hset],
        by simpa [Tracker.applyOp] using hmg,
        Tracker.stop_inv t1 now⟩

/-- **C4.** In every state reachable from a fresh Tracker by any sequence of
`start`/`switch`/`activity_ping`/`poll`/`stop` calls issued at non-decreasing
wall-clock times (with a non-negative configured idle timeout), the active
session — while one exists — satisfies `0 ≤ idle_accum` and
`idle_accum ≤ now - start_ts` for every time `now` at or after the latest
call. -/
theorem C4_idle_accum_invariant (s0 : Settings) (hth : 0 ≤ s0.idle_timeout_seconds)
    {t : Tracker} {n : Int} (h : Reachable s0 t n) (s : ActiveSession)
    (hs : t.active = some s) :
    0 ≤ s.idle_accum ∧ ∀ now : Int, n ≤ now → s.idle_accum ≤ now - s.start_ts := by
  obtain ⟨-, -, hInv⟩ := reachable_inv s0 hth h
  obtain ⟨h1, h2, h3⟩ := hInv s hs
  exact ⟨h2, fun now hnow => by omega⟩

/-- Witness for `C4_idle_accum_invariant`: the state after `start` of
`"Dev"` at `t = 0`, observed at `now = 5`. -/
theorem C4_idle_accum_invariant_witness :
    0 ≤ (⟨none, "Dev", 0, 0, 0, 0⟩ : ActiveSession).idle_accum ∧
    (⟨none, "Dev", 0, 0, 0, 0⟩ : ActiveSession).idle_accum ≤
      5 - (⟨none, "Dev", 0, 0, 0, 0⟩ : ActiveSession).start_ts :=
  have h := C4_idle_accum_invariant defaultSettings (by decide)
    (Reachable.step (Op.startOp 0 none "Dev" none 0) (Reachable.init 0) (by decide))
    ⟨none, "Dev", 0, 0, 0, 0⟩ (by decide)
  ⟨h.1, h.2 5 (by decide)⟩
